import Mathlib

/-!
Verification development for the SeleniumWebdriver helper
(src/lib/helper/SeleniumWebdriver.js and src/lib/helper/errors/ElementNotFound.js).

The helper's locator-resolution engine is embedded shallowly:
driver queries become values of an inductive `Query` type, the page is an
abstract function `Query → List Element`, promise rejections and thrown
errors are carried in `Except`, and the session-global mutable state
(implicit-wait timeout, `withinStore`, rebound find functions) is passed
explicitly.

The `Locator` class (src/lib/locator.js) and the `xpathLocator` utilities
(src/lib/utils.js) are referenced by the helper but are not part of the
sources; those pieces are modelled from the spec and marked as such in
their doc comments.  Everything else is translated directly from
SeleniumWebdriver.js.
-/

namespace SeleniumWebdriver

/-- Modelled from the spec: raw locator inputs accepted by the helper — a plain
string, or a structured single-key descriptor with key `css`, `xpath`, `id`,
`name`, or a custom attribute key (spec §3 "Locator Value", §4.1). -/
inductive LocatorInput where
  | str (s : String)
  | css (s : String)
  | xpath (s : String)
  | id (s : String)
  | name (s : String)
  | attr (key val : String)
deriving DecidableEq, Repr

/-- Modelled from the spec: the locator `type` as classified by the `Locator`
class (spec §3: one of css | xpath | id | name | custom-attribute-key). -/
inductive LocatorType where
  | css
  | xpath
  | id
  | name
  | attr (key : String)
deriving DecidableEq, Repr

/-- Modelled from the spec: the immutable classification of a raw locator into
type/value/fuzzy (spec §3 "Locator Value"). -/
structure LocatorValue where
  type : Option LocatorType
  value : String
  fuzzy : Bool
deriving DecidableEq, Repr

/-- String prefix test, computed structurally over the character lists so that
concrete instances evaluate. -/
def strHasPrefix (s pre : String) : Bool :=
  pre.toList.isPrefixOf s.toList

/-- Modelled from the spec: the `Locator` class's classifier (src/lib/locator.js
is not among the sources).  Spec §4.1: a structured descriptor with a single
recognised key produces a non-fuzzy value with that type/value; a string
beginning with a recognisable CSS prefix (`#`, `.`) or XPath prefix (`//`, `(`)
is classified accordingly; otherwise the locator is fuzzy. -/
def classify : LocatorInput → LocatorValue
  | .css s => ⟨some .css, s, false⟩
  | .xpath s => ⟨some .xpath, s, false⟩
  | .id s => ⟨some .id, s, false⟩
  | .name s => ⟨some .name, s, false⟩
  | .attr k v => ⟨some (.attr k), v, false⟩
  | .str s =>
    if strHasPrefix s "#" || strHasPrefix s "." then ⟨some .css, s, false⟩
    else if strHasPrefix s "//" || strHasPrefix s "(" then ⟨some .xpath, s, false⟩
    else ⟨none, s, true⟩

/-- The raw text of a locator input: for a plain string the string itself.
Only plain strings ever reach the code paths that use the raw text (the
heuristic chains and the `by.css(locator)` fallbacks), since structured
descriptors are never fuzzy. -/
def rawText : LocatorInput → String
  | .str s => s
  | .css s => s
  | .xpath s => s
  | .id s => s
  | .name s => s
  | .attr _ v => v

/-- Modelled from the spec: `xpathLocator.literal` from src/lib/utils.js (not
among the sources).  Spec §4.1: text literals must be escaped/quoted safely for
embedding into generated XPath, neutralising literal quote characters.  The
quote character is written via its code point to keep the model readable. -/
def xpathLiteral (s : String) : String :=
  if s.toList.contains (Char.ofNat 39) then "concat-neutralised:" ++ s
  else "'" ++ s ++ "'"

/-- A driver-native query issued through `findElement`/`findElements`.
`native t v` is `global.by[t](v)` as built by `guessLocator`; `cssOf s` is
`global.by.css(s)`; `invalid` is the value `false` that `guessLocator` returns
for a fuzzy locator, passed to the driver verbatim (e.g. `findElements(false)`
in `_locate`).  The XPath-generating strategies of the capability chains are
represented by dedicated constructors carrying the escaped literal, mirroring
`Locator.field.*`, `Locator.checkable.*` and `Locator.clickable.*`. -/
inductive Query where
  | native (t : LocatorType) (v : String)
  | cssOf (s : String)
  | invalid
  | fieldLabelEquals (lit : String)
  | fieldLabelContains (lit : String)
  | fieldByName (lit : String)
  | checkableByText (lit : String)
  | checkableByName (lit : String)
  | clickableNarrow (lit : String)
  | clickableWide (lit : String)
deriving DecidableEq, Repr

/-- A DOM element handle.  `eid` distinguishes handles; `isSelected` is the
driver's `isSelected()` answer for the element. -/
structure Element where
  eid : Nat
  isSelected : Bool
deriving DecidableEq, Repr

/-- The page, as the driver exposes it: each query yields its (possibly empty)
match list. -/
def Dom : Type := Query → List Element

/-- Embeds `guessLocator` (SeleniumWebdriver.js lines 925–930): build a
`Locator`; if it is fuzzy return `false` (here `none`); if it has a type return
`global.by[type](value)`; otherwise `false`. -/
def guessLocator (locator : LocatorInput) : Option Query :=
  let l := classify locator
  if l.fuzzy then none
  else
    match l.type with
    | some t => some (.native t l.value)
    | none => none

/-- Errors a helper call can end in.  `noSuchElement` is the driver's raw
`NoSuchElementError` rejection from `findElement`; `elementNotFound msg` is the
`Error` thrown by the `ElementNotFound` class (ElementNotFound.js) carrying its
assembled message; `typeErrorUndefined` is the TypeError raised by accessing a
property of `undefined` (e.g. `els[0].clear()` on an empty list);
`assertionFailed` is a failed assertion from the assert library;
`thrownBy (n)` tags an arbitrary user-raised error for the generic models. -/
inductive JsError where
  | noSuchElement
  | elementNotFound (msg : String)
  | typeErrorUndefined
  | assertionFailed
  | thrownBy (n : Nat)
deriving DecidableEq, Repr

/-- Modelled from the spec: the string rendering `(new Locator(locator)).toString()`
used in error messages (the `Locator` class is not among the sources; spec §6
calls it the "offending locator's string rendering"). -/
def locatorToString : LocatorInput → String
  | .str s => s
  | .css s => "css: " ++ s
  | .xpath s => "xpath: " ++ s
  | .id s => "id: " ++ s
  | .name s => "name: " ++ s
  | .attr k v => k ++ ": " ++ v

/-- The default postfix message of `ElementNotFound`
(ElementNotFound.js line 7). -/
def notFoundPostfix : String := "was not found by text|CSS|XPath"

/-- Embeds the `ElementNotFound` class (ElementNotFound.js lines 6–10): its
constructor throws an `Error` with message
`prefixMessage ++ " " ++ locator.toString() ++ " " ++ postfixMessage`. -/
def elementNotFoundError (locator : LocatorInput) (prefixMsg postfixMsg : String) : JsError :=
  .elementNotFound (prefixMsg ++ " " ++ locatorToString locator ++ " " ++ postfixMsg)

/-- Embeds `assertElementExists` (SeleniumWebdriver.js lines 932–936): throw an
`ElementNotFound` when the result list is empty, otherwise do nothing. -/
def assertElementExists (res : List Element) (locator : LocatorInput)
    (prefixMsg postfixMsg : String) : Except JsError Unit :=
  if res.isEmpty then .error (elementNotFoundError locator prefixMsg postfixMsg)
  else .ok ()

/-- `findElement`: the driver resolves a query to its first match, or rejects
with the raw `NoSuchElementError`. -/
def findElementD (dom : Dom) (q : Query) : Except JsError Element :=
  match dom q with
  | [] => .error .noSuchElement
  | e :: _ => .ok e

/-! ### SmartWait controller (`_smartWait`, lines 258–265)

The implicit-wait timeout is session-global mutable state, modelled as a `Nat`
threaded through the call.  A query function passed to `_smartWait` either
throws synchronously when invoked, or returns a value — for the browser-query
closures the helper passes, that value is a promise, whose eventual failure is
a rejection carried inside the returned value, not a synchronous throw.  Both
shapes are captured by `FnOutcome`: the function observes the implicit-wait
state in force when it is invoked. -/

/-- Outcome of invoking a query function `fn` under a given implicit-wait
state: `thrown e` is a synchronous exception escaping the call `fn()`;
`returned r` is a normal return, where `r` is the (promise) value — `.ok` for a
resolved query, `.error` for one that will reject. -/
inductive FnOutcome (A : Type) where
  | thrown (e : JsError)
  | returned (r : Except JsError A)

/-- Embeds `_smartWait(fn, enabled)` (lines 258–265) over explicit implicit-wait
state `w`:
if `!this.options.smartWait || !enabled`, `fn()` runs with the state untouched;
otherwise `implicitlyWait(cfg)` sets the state to `cfg`, `let res = fn()` runs,
and — only when `fn()` returns rather than throws, since there is no
`try`/`finally` — `implicitlyWait(0)` resets the state before `res` is
returned.  The result pairs the call's outcome (a synchronous throw collapses
into the async function's rejection) with the final implicit-wait state. -/
def smartWaitRun (cfg : Nat) (enabled : Bool) (fn : Nat → FnOutcome A) (w : Nat) :
    Except JsError A × Nat :=
  if cfg = 0 ∨ enabled = false then
    match fn w with
    | .thrown e => (.error e, w)
    | .returned r => (r, w)
  else
    match fn cfg with
    | .thrown e => (.error e, cfg)
    | .returned r => (r, 0)

/-! ### Scoped context manager (`_withinBegin`, `_withinEnd`, `_failed`)

The mutable pieces are `this.browser.findElement` / `this.browser.findElements`
(function-valued slots, possibly `undefined`, hence `Option F`), `this.context`,
the module-level `withinStore` object (either the empty object `{}` or one with
`elFn`/`elsFn` keys, hence `Option (Option F × Option F)`), and the constant
`this.options.rootElement`.  The slot types are abstract so that restoration
"to exactly the pre-entry values" is stated for arbitrary find functions. -/

/-- The session state touched by the scoped context manager; `F` is the type of
find functions, `C` the type of contexts/locators. -/
structure BrowserState (F C : Type) where
  findElement : Option F
  findElements : Option F
  context : C
  withinStore : Option (Option F × Option F)
  rootElement : C

/-- Embeds the success path of `_withinBegin(locator)` (lines 221–231): save the
current `findElement`/`findElements` into `withinStore`, set `this.context` to
the locator, and — once the element promise resolves — rebind both find slots
to the scoped versions searching inside the matched element. -/
def withinBeginOk (s : BrowserState F C) (locator : C) (scopedEl scopedEls : F) :
    BrowserState F C :=
  { s with
    withinStore := some (s.findElement, s.findElements)
    context := locator
    findElement := some scopedEl
    findElements := some scopedEls }

/-- Embeds `_withinEnd()` (lines 233–238): restore both find slots from
`withinStore` (reading a key off the empty object yields `undefined`), reset
`withinStore` to `{}`, and set `this.context` back to
`this.options.rootElement`. -/
def withinEnd (s : BrowserState F C) : BrowserState F C :=
  { s with
    findElement := match s.withinStore with
      | some p => p.1
      | none => none
    findElements := match s.withinStore with
      | some p => p.2
      | none => none
    withinStore := none
    context := s.rootElement }

/-- Embeds the scope-cleanup part of the `_failed` hook (lines 194–196): when
`Object.keys(withinStore).length != 0`, call `_withinEnd()` (the screenshot
branch touches none of this state). -/
def failedHook (s : BrowserState F C) : BrowserState F C :=
  match s.withinStore with
  | some _ => withinEnd s
  | none => s

/-- Embeds the element-resolution outcome of `_withinBegin(locator)` (line 226):
`this.browser.findElement(guessLocator(locator) || global.by.css(locator))`,
a single `findElement` call whose failure is the driver's raw rejection —
no `ElementNotFound` is constructed anywhere in `_withinBegin`. -/
def withinBeginResult (dom : Dom) (locator : LocatorInput) : Except JsError Element :=
  findElementD dom ((guessLocator locator).getD (Query.cssOf (rawText locator)))

/-! ### Resolution facade (`_locate`, lines 254–256)

`_locate(locator, smartWait)` passes
`() => this.browser.findElements(guessLocator(locator))` to `_smartWait`.
Whatever the smart-wait bracket does to the timeout state, the queries the
closure issues are fixed: a single `findElements` call whose argument is the
result of `guessLocator` — `false` (`Query.invalid`) when the locator is
fuzzy.  `locateQueries` is that issued-query list and `locateResult` the match
list the call returns. -/

/-- The driver queries `_locate(locator)` issues: exactly one `findElements`
call with `guessLocator(locator)` as its argument (`false`, i.e.
`Query.invalid`, when the guess fails). -/
def locateQueries (locator : LocatorInput) : List Query :=
  [(guessLocator locator).getD Query.invalid]

/-- The match list `_locate(locator)` returns: the verbatim result of its
single `findElements` call. -/
def locateResult (dom : Dom) (locator : LocatorInput) : List Element :=
  dom ((guessLocator locator).getD Query.invalid)

/-! ### Capability strategy chains (`findFields`, `findCheckable`, `findClickable`)

Each embedding returns the result together with the ordered list of driver
queries the run actually issued, making short-circuiting provable. -/

/-- Embeds `findFields(client, locator)` (lines 833–854): a non-fuzzy locator
is resolved by one direct `findElements(matchedLocator)`; a fuzzy one tries
label-equals, then label-contains, then by-name, each short-circuiting on a
non-empty result, and finally falls back to `findElements(by.css(locator))`
whose result is returned unconditionally. -/
def findFieldsTrace (dom : Dom) (locator : LocatorInput) : List Element × List Query :=
  match guessLocator locator with
  | some q => (dom q, [q])
  | none =>
    let lit := xpathLiteral (rawText locator)
    let q1 := Query.fieldLabelEquals lit
    let els1 := dom q1
    if ¬ els1.isEmpty then (els1, [q1])
    else
      let q2 := Query.fieldLabelContains lit
      let els2 := dom q2
      if ¬ els2.isEmpty then (els2, [q1, q2])
      else
        let q3 := Query.fieldByName lit
        let els3 := dom q3
        if ¬ els3.isEmpty then (els3, [q1, q2, q3])
        else
          let q4 := Query.cssOf (rawText locator)
          (dom q4, [q1, q2, q3, q4])

/-- Embeds `findCheckable(client, locator)` (lines 816–831): direct query for a
non-fuzzy locator; otherwise by-text, then by-name, then the raw CSS
fallback. -/
def findCheckableTrace (dom : Dom) (locator : LocatorInput) : List Element × List Query :=
  match guessLocator locator with
  | some q => (dom q, [q])
  | none =>
    let lit := xpathLiteral (rawText locator)
    let q1 := Query.checkableByText lit
    let els1 := dom q1
    if ¬ els1.isEmpty then (els1, [q1])
    else
      let q2 := Query.checkableByName lit
      let els2 := dom q2
      if ¬ els2.isEmpty then (els2, [q1, q2])
      else
        let q3 := Query.cssOf (rawText locator)
        (dom q3, [q1, q2, q3])

/-- Embeds `findClickable(matcher, locator)` (lines 905–923): a non-fuzzy
locator is resolved by a single `findElement(guessLocator(locator.value))`
(note: the guess is re-run on the *value* string; no `by.css` fallback here);
a fuzzy one tries the narrow clickable XPath, then the wide one — returning
`els[0]`, the first element only, when a strategy matches — and finally
`findElement(by.css(locator.value))`. -/
def findClickableTrace (dom : Dom) (locator : LocatorInput) :
    Except JsError Element × List Query :=
  let l := classify locator
  if l.fuzzy then
    let lit := xpathLiteral l.value
    let q1 := Query.clickableNarrow lit
    match dom q1 with
    | e :: _ => (.ok e, [q1])
    | [] =>
      let q2 := Query.clickableWide lit
      match dom q2 with
      | e :: _ => (.ok e, [q1, q2])
      | [] =>
        let q3 := Query.cssOf l.value
        (findElementD dom q3, [q1, q2, q3])
  else
    let q := (guessLocator (LocatorInput.str l.value)).getD Query.invalid
    (findElementD dom q, [q])

/-! ### Field operations (`fillField`, `appendField`, `clearField`) -/

/-- Embeds `fillField(field, value)` (lines 357–361): resolve via `findFields`
and call `els[0].clear()` then `els[0].sendKeys(value)` with **no** existence
assertion — on an empty result, `els[0]` is `undefined` and accessing `.clear`
raises a TypeError.  The driver-side effects of clear/sendKeys are outside the
model; the call's control-flow outcome is what is kept. -/
def fillField (dom : Dom) (field : LocatorInput) : Except JsError Unit :=
  match (findFieldsTrace dom field).1 with
  | [] => .error .typeErrorUndefined
  | _ :: _ => .ok ()

/-- Embeds `appendField(field, value)` (lines 419–423): resolve via
`findFields`, then `assertElementExists(els, field, "Field")` — whose thrown
error propagates — then `els[0].sendKeys(value)`. -/
def appendField (dom : Dom) (field : LocatorInput) : Except JsError Unit :=
  match assertElementExists (findFieldsTrace dom field).1 field "Field" notFoundPostfix with
  | .error e => .error e
  | .ok _ => .ok ()

/-- Embeds `clearField(field)` (lines 428–432): resolve via `findFields`, then
`assertElementExists(els, field, "Field")` — whose thrown error propagates —
then `els[0].clear()`. -/
def clearField (dom : Dom) (field : LocatorInput) : Except JsError Unit :=
  match assertElementExists (findFieldsTrace dom field).1 field "Field" notFoundPostfix with
  | .error e => .error e
  | .ok _ => .ok ()

/-! ### Checkbox state (`proceedIsChecked`, `seeCheckboxIsChecked`) -/

/-- JavaScript's `values.reduce((prev, cur) => prev || cur)` on the guarded,
non-empty selection list: for a non-empty list a fold of `||` with a `false`
seed computes the same value as the seedless JS reduce. -/
def jsReduceOr (values : List Bool) : Bool :=
  values.foldl (· || ·) false

/-- Embeds `proceedIsChecked('assert', option)` (lines 895–903) as called by
`seeCheckboxIsChecked` (lines 451–453): resolve via `findCheckable`, assert
existence with prefix `"Option"`, collect every element's `isSelected()`,
reduce them with `prev || cur`, and pass the result to
`truth(...).assert(selected)` — which succeeds exactly when `selected` is
truthy. -/
def seeCheckboxIsChecked (dom : Dom) (option : LocatorInput) : Except JsError Unit :=
  let els := (findCheckableTrace dom option).1
  match assertElementExists els option "Option" notFoundPostfix with
  | .error e => .error e
  | .ok _ =>
    let selected := jsReduceOr (els.map (·.isSelected))
    if selected then .ok () else .error .assertionFailed

/-! ### Spec-side strategy-chain combinator

For the refinement claims the spec's description of chain execution is written
out as its own definition, to be compared with the embeddings above. -/

/-- Follows the spec's words (§3 "Strategy Chain", §4.2 contract): an ordered
list of query strategies evaluated by a single "first non-empty result set
wins" combinator — an empty result means "try next strategy", a non-empty
result is final and short-circuits the rest.  The trace records exactly the
queries issued. -/
def specChainRun (dom : Dom) : List Query → List Element × List Query
  | [] => ([], [])
  | q :: qs =>
    let els := dom q
    if els.isEmpty then
      let rest := specChainRun dom qs
      (rest.1, q :: rest.2)
    else (els, [q])

/-- Follows the spec's words (§4.2 "Field"): (1) label exactly matches the
text, (2) label contains the text, (3) `name` attribute equals the text,
(4) the original text as a direct CSS selector. -/
def fieldSpecChain (t : String) : List Query :=
  [Query.fieldLabelEquals (xpathLiteral t), Query.fieldLabelContains (xpathLiteral t),
   Query.fieldByName (xpathLiteral t), Query.cssOf t]

/-- Follows the spec's words (§4.2): field resolution runs the field chain with
the first-non-empty-wins combinator. -/
def fieldSpecResolve (dom : Dom) (t : String) : List Element × List Query :=
  specChainRun dom (fieldSpecChain t)

/-- Follows the spec's words (§4.2 "Checkable"): (1) label text match,
(2) `name` attribute match, (3) raw CSS fallback. -/
def checkableSpecChain (t : String) : List Query :=
  [Query.checkableByText (xpathLiteral t), Query.checkableByName (xpathLiteral t),
   Query.cssOf t]

/-- Follows the spec's words (§4.2): checkable resolution runs the checkable
chain with the first-non-empty-wins combinator. -/
def checkableSpecResolve (dom : Dom) (t : String) : List Element × List Query :=
  specChainRun dom (checkableSpecChain t)

/-! ### Concrete example pages

Small concrete `Dom` values used to instantiate the theorems. -/

/-- A page where the field label-equals strategy matches one input and nothing
else matches. -/
def domLabelPassword : Dom := fun q =>
  match q with
  | .fieldLabelEquals _ => [⟨3, false⟩]
  | _ => []

/-- A page where the narrow clickable strategy matches two elements. -/
def domTwoButtons : Dom := fun q =>
  match q with
  | .clickableNarrow _ => [⟨1, false⟩, ⟨2, false⟩]
  | _ => []

/-- A page with two same-named checkboxes matched by the checkable by-text
strategy, one unchecked and one checked. -/
def domAgree : Dom := fun q =>
  match q with
  | .checkableByText _ => [⟨1, false⟩, ⟨2, true⟩]
  | _ => []

/-! ### Helper lemmas -/

/-- A fuzzy locator makes `guessLocator` return `false` (`none`). -/
theorem guessLocator_eq_none_of_fuzzy (locator : LocatorInput)
    (h : (classify locator).fuzzy = true) : guessLocator locator = none := by
  simp [guessLocator, h]

/-- A non-fuzzy classification always carries a type. -/
theorem classify_nonfuzzy_type (locator : LocatorInput)
    (h : (classify locator).fuzzy = false) :
    ∃ t, (classify locator).type = some t := by
  cases locator with
  | str s =>
    simp only [classify] at h ⊢
    split_ifs at h ⊢ <;> simp_all
  | css s => simp [classify]
  | xpath s => simp [classify]
  | id s => simp [classify]
  | name s => simp [classify]
  | attr k v => simp [classify]

/-- Folding `||` from a `false` seed computes `List.any`: the value of the
seedless JavaScript `reduce((prev, cur) => prev || cur)` on a non-empty
list. -/
theorem foldl_or_eq_any (l : List Bool) (b : Bool) :
    l.foldl (· || ·) b = (b || l.any id) := by
  induction l generalizing b with
  | nil => simp
  | cons x xs ih => simp [List.foldl, ih, Bool.or_assoc]

/-- `jsReduceOr` computes `List.any`: some element is `true`. -/
theorem jsReduceOr_eq_any (l : List Bool) : jsReduceOr l = l.any id := by
  simpa [jsReduceOr] using foldl_or_eq_any l false

/-! ### C1 — SmartWait reset on success and failure paths -/

/-- C1, counterexample: the claim says that with smart wait enabled the
implicit-wait timeout has been reset to 0 after `_smartWait(fn)` "both when fn
returns normally and when fn throws".  With configured timeout 5 and a query
function that throws when invoked, the timeout is left at 5 after the call:
`_smartWait` has no `try`/`finally`, so the `implicitlyWait(0)` on line 263 is
skipped when line 262's `fn()` throws. -/
theorem smartWait_throw_skips_reset :
    (smartWaitRun 5 true
      (fun _ => (FnOutcome.thrown (JsError.thrownBy 0) : FnOutcome Nat)) 0).2 = 5 := by
  decide

/-- C1, amended: for every configured smartWait timeout ≥ 1 (a 0 timeout
disables the bracket entirely) and smart wait enabled, after `_smartWait(fn)`
the session-global implicit-wait timeout has been reset to 0 whenever `fn`
returns — including when the query it started fails, i.e. when the value it
returns is a rejected promise — but not when `fn` throws synchronously. -/
theorem smartWait_resets_on_return {A : Type} (cfg w : Nat) (fn : Nat → FnOutcome A)
    (r : Except JsError A) (hcfg : cfg ≠ 0) (hfn : fn cfg = .returned r) :
    (smartWaitRun cfg true fn w).2 = 0 := by
  simp [smartWaitRun, hcfg, hfn]

/-- C1, witness: configured timeout 5, initial implicit wait 7, and a query
function whose query fails (returns a rejected promise): the final
implicit-wait timeout is 0. -/
theorem smartWait_resets_on_return_witness :
    (smartWaitRun 5 true
      (fun _ => FnOutcome.returned (Except.error (JsError.thrownBy 1) : Except JsError Nat))
      7).2 = 0 :=
  smartWait_resets_on_return 5 7 _ (Except.error (JsError.thrownBy 1)) (by decide) rfl

/-! ### C2 — scope entry/exit round-trip -/

/-- C2: for every locator resolving to an element (the success path of
`_withinBegin`), starting from a state with no active scope (`withinStore` is
the empty object and the context is the root element), `_withinBegin(locator)`
followed by `_withinEnd()` restores the browser's `findElement` and
`findElements` slots and the context to exactly their pre-entry values and
clears the saved scope state — the final state equals the initial state. -/
theorem within_begin_end_roundtrip {F C : Type} (s : BrowserState F C) (locator : C)
    (scopedEl scopedEls : F)
    (hstore : s.withinStore = none) (hctx : s.context = s.rootElement) :
    withinEnd (withinBeginOk s locator scopedEl scopedEls) = s := by
  cases s
  simp_all [withinBeginOk, withinEnd]

/-- C2, witness: a concrete state with find functions numbered 1 and 2, root
`"body"`, no active scope; entering scope `"#frame"` and exiting restores the
state exactly. -/
theorem within_begin_end_roundtrip_witness :
    withinEnd (withinBeginOk
      (⟨some 1, some 2, "body", none, "body"⟩ : BrowserState Nat String)
      "#frame" 10 11) = ⟨some 1, some 2, "body", none, "body"⟩ :=
  within_begin_end_roundtrip _ _ _ _ rfl rfl

/-! ### C3 — cleanup of an active scope on the failure path -/

/-- C3: whenever the `_failed` hook runs while a scope is active (the
`withinStore` object is non-empty, holding the saved root-level find
functions), the hook invokes `_withinEnd`, which restores the saved find
functions into the browser's slots, clears the scope store, and resets the
context to the root element — scope state does not outlive the failed scoped
block. -/
theorem failed_hook_releases_scope {F C : Type} (s : BrowserState F C)
    (elFn elsFn : Option F) (h : s.withinStore = some (elFn, elsFn)) :
    (failedHook s).findElement = elFn ∧ (failedHook s).findElements = elsFn ∧
    (failedHook s).withinStore = none ∧ (failedHook s).context = s.rootElement := by
  cases s
  simp_all [failedHook, withinEnd]

/-- C3, witness: a state inside a scope (rebound find functions 99/98, saved
originals 1/2, context `"#frame"`): after the `_failed` hook, the originals are
back, the store is empty and the context is the root element. -/
theorem failed_hook_releases_scope_witness :
    ((failedHook (⟨some 99, some 98, "#frame", some (some 1, some 2), "body"⟩ :
        BrowserState Nat String)).findElement = some 1 ∧
      (failedHook (⟨some 99, some 98, "#frame", some (some 1, some 2), "body"⟩ :
        BrowserState Nat String)).findElements = some 2 ∧
      (failedHook (⟨some 99, some 98, "#frame", some (some 1, some 2), "body"⟩ :
        BrowserState Nat String)).withinStore = none ∧
      (failedHook (⟨some 99, some 98, "#frame", some (some 1, some 2), "body"⟩ :
        BrowserState Nat String)).context =
        (⟨some 99, some 98, "#frame", some (some 1, some 2), "body"⟩ :
        BrowserState Nat String).rootElement) :=
  failed_hook_releases_scope _ (some 1) (some 2) rfl

/-! ### C4 — `_locate` on a fuzzy locator -/

/-- C4, counterexample: the claim says `_locate` on a fuzzy locator selects and
executes the capability strategy chain, "producing the chain's heuristic
queries rather than a single direct native query".  In the code, `_locate`
(line 255) issues exactly one `findElements` call whose argument is
`guessLocator(locator)` — which is `false` for a fuzzy locator — with no
fallback and no chain: for the fuzzy locator `"Password"`, the issued query
list is the single invalid query, which is not among the queries of the field
strategy chain. -/
theorem locate_fuzzy_no_chain_counterexample :
    locateQueries (LocatorInput.str "Password") = [Query.invalid] ∧
    Query.invalid ∉ (findFieldsTrace (fun _ => []) (LocatorInput.str "Password")).2 := by
  decide

/-- C4, amended: for every fuzzy locator, `_locate` does not select any
capability strategy chain: it issues exactly one `findElements` call whose
argument is the `false` returned by `guessLocator` (no native query is built),
and returns whatever the driver produces for that call; the capability
strategy chains are executed only by `findFields`, `findCheckable` and
`findClickable`, never by `_locate`. -/
theorem locate_fuzzy_single_invalid_query (dom : Dom) (locator : LocatorInput)
    (h : (classify locator).fuzzy = true) :
    locateQueries locator = [Query.invalid] ∧
    locateResult dom locator = dom Query.invalid := by
  have hg := guessLocator_eq_none_of_fuzzy locator h
  simp [locateQueries, locateResult, hg]

/-- C4, witness: the fuzzy locator `"Password"` on an empty page: one invalid
query issued, the driver's answer for it returned. -/
theorem locate_fuzzy_single_invalid_query_witness :
    locateQueries (LocatorInput.str "Password") = [Query.invalid] ∧
    locateResult (fun _ => []) (LocatorInput.str "Password") =
      (fun _ => ([] : List Element)) Query.invalid :=
  locate_fuzzy_single_invalid_query (fun _ => []) (LocatorInput.str "Password") (by decide)

/-! ### C5 — `_withinBegin` on an unresolvable locator -/

/-- C5, counterexample: the claim says scope entry fails with an
`ElementNotFound` error rather than propagating a raw driver-level not-found
error.  In the code, `_withinBegin` (line 226) calls
`this.browser.findElement(...)` with no catch and never constructs an
`ElementNotFound`: on a page with no matches, entering scope `"#nonexistent"`
fails with the driver's raw `NoSuchElementError`, not with an
`elementNotFound` message. -/
theorem withinBegin_raw_error_counterexample :
    withinBeginResult (fun _ => []) (LocatorInput.css "#nonexistent") =
      Except.error JsError.noSuchElement := by
  rfl

/-- C5, amended: for every locator for which no element resolves,
`_withinBegin` fails with the driver's raw not-found rejection
(`NoSuchElementError` from `findElement`); the `ElementNotFound` wrapping with
the locator's rendered form exists only in `assertElementExists`-based
callers, which `_withinBegin` does not use. -/
theorem withinBegin_propagates_driver_error (dom : Dom) (locator : LocatorInput)
    (h : dom ((guessLocator locator).getD (Query.cssOf (rawText locator))) = []) :
    withinBeginResult dom locator = Except.error JsError.noSuchElement := by
  simp [withinBeginResult, findElementD, h]

/-- C5, witness: locator `"#nonexistent"` on an empty page. -/
theorem withinBegin_propagates_driver_error_witness :
    withinBeginResult (fun _ => []) (LocatorInput.str "#nonexistent") =
      Except.error JsError.noSuchElement :=
  withinBegin_propagates_driver_error (fun _ => []) (LocatorInput.str "#nonexistent") rfl

/-! ### C6 — the field strategy chain -/

/-- C6: for every fuzzy field locator, `findFields` runs exactly the ordered
chain label-equals, label-contains, name-equals, literal-CSS, returns the
result set of the first strategy yielding a non-empty set, and issues no later
strategy's query once one succeeds: its result and issued-query trace coincide
with the spec's first-non-empty-wins combinator over the field chain. -/
theorem findFields_matches_spec_chain (dom : Dom) (t : String)
    (h : (classify (LocatorInput.str t)).fuzzy = true) :
    findFieldsTrace dom (LocatorInput.str t) = fieldSpecResolve dom t := by
  have hg := guessLocator_eq_none_of_fuzzy _ h
  simp only [findFieldsTrace, hg, fieldSpecResolve, fieldSpecChain, specChainRun, rawText]
  by_cases h1 : (dom (Query.fieldLabelEquals (xpathLiteral t))).isEmpty <;>
    by_cases h2 : (dom (Query.fieldLabelContains (xpathLiteral t))).isEmpty <;>
    by_cases h3 : (dom (Query.fieldByName (xpathLiteral t))).isEmpty <;>
    by_cases h4 : (dom (Query.cssOf t)).isEmpty <;>
    simp_all [List.isEmpty_iff]

/-- C6, witness: a page where the label-equals strategy matches an input for
the fuzzy locator `"Password"`. -/
theorem findFields_matches_spec_chain_witness :
    findFieldsTrace domLabelPassword (LocatorInput.str "Password") =
      fieldSpecResolve domLabelPassword "Password" :=
  findFields_matches_spec_chain domLabelPassword "Password" (by decide)

/-! ### C7 — first strategy's entire result set -/

/-- C7, counterexample: the claim says every capability chain, "including the
clickable chain", returns the first successful strategy's entire result set and
never narrows to a single element.  On a page where the narrow clickable
strategy matches two elements for the fuzzy locator `"Sign in"`, `findClickable`
(line 915: `return els[0]`) returns only the first of them. -/
theorem findClickable_narrows_counterexample :
    (domTwoButtons (Query.clickableNarrow (xpathLiteral "Sign in"))).length = 2 ∧
    (findClickableTrace domTwoButtons (LocatorInput.str "Sign in")).1 =
      Except.ok ⟨1, false⟩ :=
  ⟨rfl, rfl⟩

/-- C7, amended: `findFields` and `findCheckable` return the first successful
strategy's entire result set (the field case is the C6 theorem; this theorem
establishes it for the checkable chain by matching the spec's
first-non-empty-wins combinator, which keeps whole result sets); `findClickable`
alone narrows, returning only the first element of the first successful
strategy's result set. -/
theorem findCheckable_matches_spec_chain (dom : Dom) (t : String)
    (h : (classify (LocatorInput.str t)).fuzzy = true) :
    findCheckableTrace dom (LocatorInput.str t) = checkableSpecResolve dom t := by
  have hg := guessLocator_eq_none_of_fuzzy _ h
  simp only [findCheckableTrace, hg, checkableSpecResolve, checkableSpecChain, specChainRun,
    rawText]
  by_cases h1 : (dom (Query.checkableByText (xpathLiteral t))).isEmpty <;>
    by_cases h2 : (dom (Query.checkableByName (xpathLiteral t))).isEmpty <;>
    by_cases h3 : (dom (Query.cssOf t)).isEmpty <;>
    simp_all [List.isEmpty_iff]

/-- C7, witness: the two same-named checkboxes page with fuzzy locator
`"agree"`: the checkable chain's result keeps both elements. -/
theorem findCheckable_matches_spec_chain_witness :
    findCheckableTrace domAgree (LocatorInput.str "agree") =
      checkableSpecResolve domAgree "agree" :=
  findCheckable_matches_spec_chain domAgree "agree" (by decide)

/-! ### C8 — checkable OR-semantics -/

/-- C8: for every checkable locator whose resolution yields a non-empty element
list, `seeCheckboxIsChecked` succeeds exactly when at least one matched element
is selected — the per-element `isSelected` states are combined by the
`reduce((prev, cur) => prev || cur)` fold, i.e. logical OR across all
matches. -/
theorem seeCheckbox_or_semantics (dom : Dom) (option : LocatorInput)
    (h : (findCheckableTrace dom option).1 ≠ []) :
    seeCheckboxIsChecked dom option = Except.ok () ↔
      ∃ e ∈ (findCheckableTrace dom option).1, e.isSelected = true := by
  have hne : (findCheckableTrace dom option).1.isEmpty = false := by
    simpa [List.isEmpty_iff] using h
  by_cases hsel : ∃ e ∈ (findCheckableTrace dom option).1, e.isSelected = true <;>
    simp_all [seeCheckboxIsChecked, assertElementExists, jsReduceOr_eq_any,
      List.any_map, Function.comp, List.any_eq_true]

/-- C8, witness: two checkboxes share the name `"agree"`, one checked and one
not; `seeCheckboxIsChecked("agree")` succeeds since one of them is selected. -/
theorem seeCheckbox_or_semantics_witness :
    (seeCheckboxIsChecked domAgree (LocatorInput.str "agree") = Except.ok () ↔
      ∃ e ∈ (findCheckableTrace domAgree (LocatorInput.str "agree")).1,
        e.isSelected = true) :=
  seeCheckbox_or_semantics domAgree (LocatorInput.str "agree") (by decide)

/-! ### C9 — `_locate` on a non-fuzzy locator -/

/-- C9: for every non-fuzzy locator (explicit css, xpath, id, name or
structured key — by `classify_nonfuzzy_type` such a locator always carries a
type `t`), `_locate` issues exactly one direct native query built from the
locator's type and value, and returns the driver's match list for it verbatim
— the embedding is a total function into `List Element`, so a zero-match
result is the empty list and never a thrown error at this layer. -/
theorem locate_nonfuzzy_direct (dom : Dom) (locator : LocatorInput) (t : LocatorType)
    (h : (classify locator).fuzzy = false) (ht : (classify locator).type = some t) :
    guessLocator locator = some (Query.native t (classify locator).value) ∧
      locateQueries locator = [Query.native t (classify locator).value] ∧
      locateResult dom locator = dom (Query.native t (classify locator).value) := by
  have hg : guessLocator locator = some (Query.native t (classify locator).value) := by
    simp [guessLocator, h, ht]
  exact ⟨hg, by simp [locateQueries, hg], by simp [locateResult, hg]⟩

/-- C9, witness: the explicit CSS locator `"#nonexistent"` on an empty page:
one native css query, returning the empty list without an error. -/
theorem locate_nonfuzzy_direct_witness :
    guessLocator (LocatorInput.css "#nonexistent") =
        some (Query.native LocatorType.css
          (classify (LocatorInput.css "#nonexistent")).value) ∧
      locateQueries (LocatorInput.css "#nonexistent") =
        [Query.native LocatorType.css (classify (LocatorInput.css "#nonexistent")).value] ∧
      locateResult (fun _ => []) (LocatorInput.css "#nonexistent") =
        (fun _ => ([] : List Element))
          (Query.native LocatorType.css (classify (LocatorInput.css "#nonexistent")).value) :=
  locate_nonfuzzy_direct (fun _ => []) (LocatorInput.css "#nonexistent") LocatorType.css
    rfl rfl

/-! ### C10 — `fillField` performs no existence assertion -/

/-- C10: for every field locator resolving to zero elements, `fillField` fails
with the TypeError from indexing the empty result list (`els[0].clear()` on
`undefined`) and never with an `ElementNotFound`-style error carrying the
locator's rendering — the `JsError` constructors are disjoint, so the
`typeErrorUndefined` outcome excludes every `elementNotFound` message — while
`appendField` and `clearField` assert existence first and fail with the
rendered `ElementNotFound` error. -/
theorem fillField_no_existence_assert (dom : Dom) (field : LocatorInput)
    (h : (findFieldsTrace dom field).1 = []) :
    fillField dom field = Except.error JsError.typeErrorUndefined ∧
    appendField dom field =
      Except.error (elementNotFoundError field "Field" notFoundPostfix) ∧
    clearField dom field =
      Except.error (elementNotFoundError field "Field" notFoundPostfix) := by
  refine ⟨?_, ?_, ?_⟩ <;>
    simp [fillField, appendField, clearField, assertElementExists, h]

/-- C10, witness: the fuzzy locator `"missing"` on an empty page: `fillField`
ends in the TypeError, `appendField` and `clearField` in the rendered
`ElementNotFound` error. -/
theorem fillField_no_existence_assert_witness :
    fillField (fun _ => []) (LocatorInput.str "missing") =
        Except.error JsError.typeErrorUndefined ∧
      appendField (fun _ => []) (LocatorInput.str "missing") =
        Except.error (elementNotFoundError (LocatorInput.str "missing") "Field"
          notFoundPostfix) ∧
      clearField (fun _ => []) (LocatorInput.str "missing") =
        Except.error (elementNotFoundError (LocatorInput.str "missing") "Field"
          notFoundPostfix) :=
  fillField_no_existence_assert (fun _ => []) (LocatorInput.str "missing") (by decide)

end SeleniumWebdriver
